import Mathlib

/-!
Shallow embedding of `src/businesscalculator.py` (class `BusinessMetricsCalculator`).
Python numbers are modelled as exact rationals; the one method whose formula uses a
real-valued power (`calculate_cagr`) is modelled over the complex numbers, matching
the semantics of the Python `**` operator (a negative base raised to a non-integral
exponent yields a complex number). A Python `raise ValueError` is modelled as
`Except.error Err.invalidArgument`; the missing-key failure of the ROI coefficient
lookup as `Err.notFound`; an uncaught `ZeroDivisionError` from `0.0 ** negative`
as `Err.zeroDivision`.
-/

inductive Err where
  | invalidArgument
  | notFound
  | zeroDivision
deriving DecidableEq

/-- Embeds `calculate_roi`: coefficient lookup in the table (a Python dict, modelled
as an association list), zero-amount check, then `coefficient * amount / amount * 100`. -/
def calculate_roi (coefficients : List (String × ℚ)) (investment_variable : String)
    (investment_amount : ℚ) : Except Err ℚ :=
  match coefficients.lookup investment_variable with
  | none => Except.error Err.notFound
  | some coefficient =>
      if investment_amount = 0 then Except.error Err.invalidArgument
      else Except.ok (coefficient * investment_amount / investment_amount * 100)

/-- Embeds `calculate_margin`. -/
def calculate_margin (revenue cost : ℚ) : Except Err ℚ :=
  if revenue = 0 then Except.error Err.invalidArgument
  else Except.ok ((revenue - cost) / revenue * 100)

/-- Embeds `calculate_growth_rate`. -/
def calculate_growth_rate (previous_value current_value : ℚ) : Except Err ℚ :=
  if previous_value = 0 then Except.error Err.invalidArgument
  else Except.ok ((current_value - previous_value) / previous_value * 100)

/-- Embeds `calculate_breakeven_point`. -/
def calculate_breakeven_point (fixed_costs variable_cost_per_unit selling_price_per_unit : ℚ) :
    Except Err ℚ :=
  if selling_price_per_unit ≤ variable_cost_per_unit then Except.error Err.invalidArgument
  else Except.ok (fixed_costs / (selling_price_per_unit - variable_cost_per_unit))

/-- Embeds `calculate_inventory_turnover`. -/
def calculate_inventory_turnover (cost_of_goods_sold average_inventory_value : ℚ) :
    Except Err ℚ :=
  if average_inventory_value = 0 then Except.error Err.invalidArgument
  else Except.ok (cost_of_goods_sold / average_inventory_value)

/-- Embeds `calculate_conversion_rate`. -/
def calculate_conversion_rate (number_of_conversions total_visitors : ℚ) : Except Err ℚ :=
  if total_visitors = 0 then Except.error Err.invalidArgument
  else Except.ok (number_of_conversions / total_visitors * 100)

/-- Embeds `calculate_operating_leverage`. -/
def calculate_operating_leverage (contribution_margin net_operating_income : ℚ) : Except Err ℚ :=
  if net_operating_income = 0 then Except.error Err.invalidArgument
  else Except.ok (contribution_margin / net_operating_income)

/-- Embeds `calculate_quick_ratio`. -/
def calculate_quick_ratio (cash accounts_receivable current_liabilities : ℚ) : Except Err ℚ :=
  if current_liabilities = 0 then Except.error Err.invalidArgument
  else Except.ok ((cash + accounts_receivable) / current_liabilities)

/-- Embeds `calculate_roa`. -/
def calculate_roa (net_income total_assets : ℚ) : Except Err ℚ :=
  if total_assets = 0 then Except.error Err.invalidArgument
  else Except.ok (net_income / total_assets * 100)

/-- Embeds `calculate_churn_rate`. -/
def calculate_churn_rate (number_of_churned_customers total_customers_at_start : ℚ) :
    Except Err ℚ :=
  if total_customers_at_start = 0 then Except.error Err.invalidArgument
  else Except.ok (number_of_churned_customers / total_customers_at_start * 100)

/-- Embeds `calculate_roe`. -/
def calculate_roe (net_income shareholders_equity : ℚ) : Except Err ℚ :=
  if shareholders_equity = 0 then Except.error Err.invalidArgument
  else Except.ok (net_income / shareholders_equity * 100)

/-- Embeds `calculate_current_ratio`. -/
def calculate_current_ratio (current_assets current_liabilities : ℚ) : Except Err ℚ :=
  if current_liabilities = 0 then Except.error Err.invalidArgument
  else Except.ok (current_assets / current_liabilities)

/-- Embeds `calculate_cac`. -/
def calculate_cac (marketing_expenses number_of_new_customers : ℚ) : Except Err ℚ :=
  if number_of_new_customers = 0 then Except.error Err.invalidArgument
  else Except.ok (marketing_expenses / number_of_new_customers)

/-- Embeds `calculate_customer_retention_rate`. -/
def calculate_customer_retention_rate
    (number_of_customers_at_end number_of_new_customers total_customers_at_start : ℚ) :
    Except Err ℚ :=
  if total_customers_at_start = 0 then Except.error Err.invalidArgument
  else Except.ok ((number_of_customers_at_end - number_of_new_customers)
    / total_customers_at_start * 100)

/-- Embeds `calculate_gross_profit_margin`. -/
def calculate_gross_profit_margin (gross_profit revenue : ℚ) : Except Err ℚ :=
  if revenue = 0 then Except.error Err.invalidArgument
  else Except.ok (gross_profit / revenue * 100)

/-- Embeds `calculate_eps`. -/
def calculate_eps (net_income number_of_shares : ℚ) : Except Err ℚ :=
  if number_of_shares = 0 then Except.error Err.invalidArgument
  else Except.ok (net_income / number_of_shares)

/-- Embeds `calculate_pe_ratio`. -/
def calculate_pe_ratio (market_price_per_share earnings_per_share : ℚ) : Except Err ℚ :=
  if earnings_per_share = 0 then Except.error Err.invalidArgument
  else Except.ok (market_price_per_share / earnings_per_share)

/-- Embeds `calculate_debt_to_equity`. -/
def calculate_debt_to_equity (total_debt shareholders_equity : ℚ) : Except Err ℚ :=
  if shareholders_equity = 0 then Except.error Err.invalidArgument
  else Except.ok (total_debt / shareholders_equity)

/-- Embeds `calculate_ltv_cac_ratio`. -/
def calculate_ltv_cac_ratio (lifetime_value customer_acquisition_cost : ℚ) : Except Err ℚ :=
  if customer_acquisition_cost = 0 then Except.error Err.invalidArgument
  else Except.ok (lifetime_value / customer_acquisition_cost)

/-- Embeds `calculate_aov`. -/
def calculate_aov (total_revenue number_of_orders : ℚ) : Except Err ℚ :=
  if number_of_orders = 0 then Except.error Err.invalidArgument
  else Except.ok (total_revenue / number_of_orders)

/-- Embeds `analyze_nps`: the denominator is derived as the sum of the three inputs. -/
def analyze_nps (promoters passives detractors : ℚ) : Except Err ℚ :=
  if promoters + passives + detractors = 0 then Except.error Err.invalidArgument
  else Except.ok ((promoters - detractors) / (promoters + passives + detractors) * 100)

/-- Embeds `calculate_lead_conversion_rate`. -/
def calculate_lead_conversion_rate (number_of_leads_converted total_leads : ℚ) : Except Err ℚ :=
  if total_leads = 0 then Except.error Err.invalidArgument
  else Except.ok (number_of_leads_converted / total_leads * 100)

/-- Embeds `calculate_cpl`. -/
def calculate_cpl (marketing_expenses total_leads : ℚ) : Except Err ℚ :=
  if total_leads = 0 then Except.error Err.invalidArgument
  else Except.ok (marketing_expenses / total_leads)

/-- Embeds `calculate_employee_turnover_rate`. -/
def calculate_employee_turnover_rate (number_of_leavers average_number_of_employees : ℚ) :
    Except Err ℚ :=
  if average_number_of_employees = 0 then Except.error Err.invalidArgument
  else Except.ok (number_of_leavers / average_number_of_employees * 100)

/-- Embeds `measure_employee_productivity`. -/
def measure_employee_productivity (total_output total_input : ℚ) : Except Err ℚ :=
  if total_input = 0 then Except.error Err.invalidArgument
  else Except.ok (total_output / total_input)

/-- The loop of `calculate_payback_period`: `cumulative` starts at 0, `period`
enumerates the inflows from 1; the loop returns `period` as soon as the running
total reaches the investment, and the Python function implicitly returns `None`
when the loop finishes without returning. -/
def paybackGo (initial_investment : ℚ) : ℚ → Nat → List ℚ → Option Nat
  | _, _, [] => none
  | cumulative, period, inflow :: rest =>
      if initial_investment ≤ cumulative + inflow then some period
      else paybackGo initial_investment (cumulative + inflow) (period + 1) rest

/-- Embeds `calculate_payback_period`. -/
def calculate_payback_period (initial_investment : ℚ) (cash_inflows : List ℚ) :
    Except Err (Option Nat) :=
  if cash_inflows = [] then Except.error Err.invalidArgument
  else Except.ok (paybackGo initial_investment 0 1 cash_inflows)

/-- The generator sum of `calculate_npv`: `i` is the running index of `enumerate`. -/
def npvSum (discount_rate : ℚ) : Nat → List ℚ → ℚ
  | _, [] => 0
  | i, cf :: rest => cf / (1 + discount_rate / 100) ^ i + npvSum discount_rate (i + 1) rest

/-- Embeds `calculate_npv`. -/
def calculate_npv (cash_flows : List ℚ) (discount_rate : ℚ) : Except Err ℚ :=
  if cash_flows = [] then Except.error Err.invalidArgument
  else if discount_rate < 0 ∨ 100 < discount_rate then Except.error Err.invalidArgument
  else Except.ok (npvSum discount_rate 0 cash_flows)

/-- Embeds `calculate_cagr`. The Python expression
`(final_value / initial_value) ** (1 / number_of_periods)` is the built-in power
operator on numbers: for a negative base and a non-integral exponent it yields the
principal complex power, for base `0` and a negative exponent it raises
`ZeroDivisionError`, and otherwise it agrees with the principal (complex) power,
so the result lives in `ℂ` and the power is `Complex` exponentiation. -/
noncomputable def calculate_cagr (initial_value final_value number_of_periods : ℚ) :
    Except Err ℂ :=
  if initial_value = 0 then Except.error Err.invalidArgument
  else if number_of_periods = 0 then Except.error Err.invalidArgument
  else if final_value / initial_value = 0 ∧ 1 / number_of_periods < 0 then
    Except.error Err.zeroDivision
  else Except.ok
    ((((final_value / initial_value : ℚ) : ℂ) ^ (((1 / number_of_periods : ℚ) : ℂ)) - 1) * 100)

/-- A parsed `YYYY-MM-DD` calendar date. -/
structure Date where
  year : Nat
  month : Nat
  day : Nat
deriving DecidableEq

/-- Gregorian leap-year rule used by Python `datetime`. -/
def isLeapYear (y : Nat) : Bool :=
  y % 4 = 0 && (y % 100 ≠ 0 || y % 400 = 0)

/-- Length of month `m` of year `y` as in Python `datetime`. -/
def daysInMonth (y m : Nat) : Nat :=
  if m = 2 then (if isLeapYear y then 29 else 28)
  else if m = 4 ∨ m = 6 ∨ m = 9 ∨ m = 11 then 30
  else 31

/-- Value of a list of ASCII digit characters read in base 10, as Python `int` does
on the groups captured by the `strptime` regular expression. -/
def digitsToNat (cs : List Char) : Nat :=
  cs.foldl (fun a c => a * 10 + (c.toNat - 48)) 0

/-- Splitting a character list at every dash, mirroring how the literal dashes of
the format `%Y-%m-%d` divide the input into a year, a month and a day group. -/
def splitDashes : List Char → List (List Char)
  | [] => [[]]
  | c :: rest =>
      if c = '-' then [] :: splitDashes rest
      else
        match splitDashes rest with
        | [] => [[c]]
        | g :: gs => (c :: g) :: gs

/-- Embeds `datetime.strptime(s, "%Y-%m-%d")` followed by the `datetime`
constructor checks: `%Y` matches exactly four digits, `%m` one or two digits with
value 1..12, `%d` one or two digits with value 1..31; the whole string must be
consumed; the constructor additionally requires year ≥ 1 and the day to fit the
month. `none` stands for the `ValueError` that `strptime` raises. -/
def parseDate (s : String) : Option Date :=
  match splitDashes s.toList with
  | [ys, ms, ds] =>
      if ys.length = 4 ∧ ys.all Char.isDigit
          ∧ (ms.length = 1 ∨ ms.length = 2) ∧ ms.all Char.isDigit
          ∧ (ds.length = 1 ∨ ds.length = 2) ∧ ds.all Char.isDigit then
        let y := digitsToNat ys
        let m := digitsToNat ms
        let d := digitsToNat ds
        if 1 ≤ y ∧ 1 ≤ m ∧ m ≤ 12 ∧ 1 ≤ d ∧ d ≤ daysInMonth y m then
          some ⟨y, m, d⟩
        else none
      else none
  | _ => none

/-- Number of days in the years before year `y`, proleptic Gregorian calendar
(`datetime`'s `_days_before_year`). -/
def daysBeforeYear (y : Nat) : Nat :=
  (y - 1) * 365 + (y - 1) / 4 - (y - 1) / 100 + (y - 1) / 400

/-- Number of days in year `y` before month `m` (`datetime`'s `_days_before_month`). -/
def daysBeforeMonth (y m : Nat) : Nat :=
  ((List.range (m - 1)).map (fun i => daysInMonth y (i + 1))).sum

/-- Python `date.toordinal()`: day number of the date in the proleptic Gregorian
calendar, with `0001-01-01` as day 1. Subtracting two `datetime` values at
midnight yields a `timedelta` whose `.days` is the difference of the ordinals. -/
def toOrdinal (d : Date) : Nat :=
  daysBeforeYear d.year + daysBeforeMonth d.year d.month + d.day

/-- Embeds `calculate_time_to_market`: parse both `YYYY-MM-DD` strings, turning a
`strptime` failure on either into `InvalidArgument`, then return
`(launch_date - start_date).days`. -/
def calculate_time_to_market (start_date launch_date : String) : Except Err Int :=
  match parseDate start_date, parseDate launch_date with
  | some s, some l => Except.ok ((toOrdinal l : Int) - (toOrdinal s : Int))
  | _, _ => Except.error Err.invalidArgument

/-- Sample start date used by the demo block. -/
def sampleStart : String := "2022-01-01"

/-- Sample launch date used by the demo block. -/
def sampleLaunch : String := "2022-01-30"

/-- A malformed date string (month 13), rejected by `strptime`. -/
def badDate : String := "2022-13-01"

/-- The demo coefficient key for ROI. -/
def roiVar : String := "investment_variable"

/-- A concrete coefficient table like the demo block constructs. -/
def roiTable : List (String × ℚ) := [( roiVar , 1 / 10 )]

/-- Behaviour of a zero-denominator guard followed by a pure value, shared by the
division-based metric methods. -/
theorem guardSpec (d v : ℚ) :
    ((if d = 0 then Except.error Err.invalidArgument else Except.ok v)
        = Except.error Err.invalidArgument ↔ d = 0)
    ∧ (d ≠ 0 → ∃ w, (if d = 0 then (Except.error Err.invalidArgument : Except Err ℚ)
        else Except.ok v) = Except.ok w) := by
  by_cases h : d = 0 <;> simp [h]

/-- Behaviour of the `selling_price ≤ variable_cost` guard of the breakeven method. -/
theorem guardLeSpec (a b v : ℚ) :
    ((if b ≤ a then Except.error Err.invalidArgument else Except.ok v)
        = Except.error Err.invalidArgument ↔ b ≤ a)
    ∧ (a < b → ∃ w, (if b ≤ a then (Except.error Err.invalidArgument : Except Err ℚ)
        else Except.ok v) = Except.ok w) := by
  by_cases h : b ≤ a
  · exact ⟨by simp [h], fun hab => absurd hab (by linarith)⟩
  · exact ⟨by simp [h], fun _ => ⟨v, by simp [h]⟩⟩

/-- The payback loop returns `none` exactly when no prefix of the remaining inflows
lifts the running total to the investment. -/
theorem paybackGo_eq_none_iff (inv : ℚ) (l : List ℚ) :
    ∀ (cum : ℚ) (p : Nat),
      paybackGo inv cum p l = none ↔
        ∀ k, 1 ≤ k → k ≤ l.length → cum + (l.take k).sum < inv := by
  induction l with
  | nil =>
      intro cum p
      simp only [paybackGo, List.length_nil]
      constructor
      · intro _ k h1 h2
        omega
      · intro _
        trivial
  | cons a l ih =>
      intro cum p
      by_cases h : inv ≤ cum + a
      · simp only [paybackGo, if_pos h]
        constructor
        · intro hn
          simp at hn
        · intro hR
          exfalso
          have h1 := hR 1 (by omega) (by simp)
          simp only [List.take_succ_cons, List.take_zero, List.sum_cons, List.sum_nil,
            add_zero] at h1
          linarith
      · simp only [paybackGo, if_neg h]
        rw [ih (cum + a) (p + 1)]
        constructor
        · intro H k hk1 hklen
          obtain ⟨j, rfl⟩ : ∃ j, k = j + 1 := ⟨k - 1, by omega⟩
          simp only [List.length_cons] at hklen
          rcases Nat.eq_zero_or_pos j with hj | hj
          · subst hj
            simp only [List.take_succ_cons, List.take_zero, List.sum_cons, List.sum_nil,
              add_zero]
            linarith [not_le.mp h]
          · have hjl : j ≤ l.length := by omega
            have := H j hj hjl
            simp only [List.take_succ_cons, List.sum_cons]
            linarith
        · intro H k hk1 hklen
          have := H (k + 1) (by omega) (by simp; omega)
          simp only [List.take_succ_cons, List.sum_cons] at this
          linarith

/-- The payback loop returns `some q` only for the first prefix whose running
total reaches the investment. -/
theorem paybackGo_eq_some (inv : ℚ) (l : List ℚ) :
    ∀ (cum : ℚ) (p q : Nat),
      paybackGo inv cum p l = some q →
        ∃ j, j < l.length ∧ q = p + j ∧ inv ≤ cum + (l.take (j + 1)).sum ∧
          ∀ i, i < j → cum + (l.take (i + 1)).sum < inv := by
  induction l with
  | nil =>
      intro cum p q h
      simp [paybackGo] at h
  | cons a l ih =>
      intro cum p q h
      by_cases hc : inv ≤ cum + a
      · simp only [paybackGo, if_pos hc] at h
        obtain rfl : p = q := Option.some.inj h
        refine ⟨0, by simp, by omega, ?_, ?_⟩
        · simp only [List.take_succ_cons, List.take_zero, List.sum_cons, List.sum_nil,
            add_zero]
          linarith
        · intro i hi
          omega
      · simp only [paybackGo, if_neg hc] at h
        obtain ⟨j, hjl, hq, hge, hlt⟩ := ih (cum + a) (p + 1) q h
        refine ⟨j + 1, by simp only [List.length_cons]; omega, by omega, ?_, ?_⟩
        · simp only [List.take_succ_cons, List.sum_cons]
          linarith
        · intro i hi
          match i with
          | 0 =>
              simp only [List.take_succ_cons, List.take_zero, List.sum_cons, List.sum_nil,
                add_zero]
              linarith [not_le.mp hc]
          | Nat.succ i' =>
              have := hlt i' (by omega)
              simp only [List.take_succ_cons, List.sum_cons]
              linarith

/-- Closed form of the NPV generator sum: term `i` of the remaining flows is
discounted by `(1 + r / 100) ^ (k + i)` when the running index starts at `k`. -/
theorem npvSum_eq (r : ℚ) (l : List ℚ) :
    ∀ k, npvSum r k l
      = ∑ i ∈ Finset.range l.length, l.getD i 0 / (1 + r / 100) ^ (k + i) := by
  induction l with
  | nil =>
      intro k
      simp [npvSum]
  | cons a l ih =>
      intro k
      rw [npvSum, ih (k + 1), List.length_cons, Finset.sum_range_succ']
      simp only [List.getD_cons_succ, List.getD_cons_zero, Nat.add_zero]
      rw [add_comm]
      congr 1
      refine Finset.sum_congr rfl ?_
      intro i _
      congr 2
      omega

/-- The positions of a list enumerate its elements: summing `getD` over the range
of the length recovers the list sum. -/
theorem sum_range_getD (l : List ℚ) :
    ∑ i ∈ Finset.range l.length, l.getD i 0 = l.sum := by
  induction l with
  | nil => simp
  | cons a l ih =>
      rw [List.length_cons, Finset.sum_range_succ']
      simp only [List.getD_cons_succ, List.getD_cons_zero, List.sum_cons]
      rw [ih]
      exact add_comm _ _

/-- C1: for every coefficient table containing the key `var` and every investment
amount different from zero, `calculate_roi var amount` returns
`coefficient[var] * 100`; the amount cancels out, so the result does not depend on
the sign or magnitude of the amount. -/
theorem roi_coefficient_times_100 (coefficients : List (String × ℚ))
    (var : String) (c amount : ℚ)
    (hc : coefficients.lookup var = some c) (ha : amount ≠ 0) :
    calculate_roi coefficients var amount = Except.ok (c * 100) := by
  unfold calculate_roi
  rw [hc]
  show (if amount = 0 then Except.error Err.invalidArgument
    else Except.ok (c * amount / amount * 100)) = Except.ok (c * 100)
  rw [if_neg ha, mul_div_assoc, div_self ha, mul_one]

theorem roi_coefficient_times_100_witness :
    roiTable.lookup roiVar = some (1 / 10) ∧ (1000 : ℚ) ≠ 0 ∧
      calculate_roi roiTable roiVar 1000 = Except.ok ((1 / 10 : ℚ) * 100) :=
  ⟨by rfl, by norm_num,
    roi_coefficient_times_100 roiTable roiVar (1 / 10) 1000 (by rfl) (by norm_num)⟩

/-- C2 (amended): every listed operation other than the breakeven point raises
`InvalidArgument` exactly when its documented denominator is zero and returns a
value whenever that denominator is non-zero; the breakeven point raises
`InvalidArgument` exactly when the selling price is less than or equal to the
variable cost, i.e. also on strictly negative denominators, and returns a value
exactly when the denominator is positive. -/
theorem denominator_zero_ops_spec :
    (∀ a b : ℚ, (calculate_margin a b = Except.error Err.invalidArgument ↔ a = 0)
      ∧ (a ≠ 0 → ∃ v, calculate_margin a b = Except.ok v))
    ∧ (∀ a b : ℚ, (calculate_growth_rate a b = Except.error Err.invalidArgument ↔ a = 0)
      ∧ (a ≠ 0 → ∃ v, calculate_growth_rate a b = Except.ok v))
    ∧ (∀ a b : ℚ, (calculate_conversion_rate a b = Except.error Err.invalidArgument ↔ b = 0)
      ∧ (b ≠ 0 → ∃ v, calculate_conversion_rate a b = Except.ok v))
    ∧ (∀ a b : ℚ, (calculate_churn_rate a b = Except.error Err.invalidArgument ↔ b = 0)
      ∧ (b ≠ 0 → ∃ v, calculate_churn_rate a b = Except.ok v))
    ∧ (∀ a b : ℚ, (calculate_inventory_turnover a b = Except.error Err.invalidArgument ↔ b = 0)
      ∧ (b ≠ 0 → ∃ v, calculate_inventory_turnover a b = Except.ok v))
    ∧ (∀ a b : ℚ, (calculate_operating_leverage a b = Except.error Err.invalidArgument ↔ b = 0)
      ∧ (b ≠ 0 → ∃ v, calculate_operating_leverage a b = Except.ok v))
    ∧ (∀ a b c : ℚ, (calculate_quick_ratio a b c = Except.error Err.invalidArgument ↔ c = 0)
      ∧ (c ≠ 0 → ∃ v, calculate_quick_ratio a b c = Except.ok v))
    ∧ (∀ a b : ℚ, (calculate_roa a b = Except.error Err.invalidArgument ↔ b = 0)
      ∧ (b ≠ 0 → ∃ v, calculate_roa a b = Except.ok v))
    ∧ (∀ a b : ℚ, (calculate_roe a b = Except.error Err.invalidArgument ↔ b = 0)
      ∧ (b ≠ 0 → ∃ v, calculate_roe a b = Except.ok v))
    ∧ (∀ a b : ℚ, (calculate_current_ratio a b = Except.error Err.invalidArgument ↔ b = 0)
      ∧ (b ≠ 0 → ∃ v, calculate_current_ratio a b = Except.ok v))
    ∧ (∀ a b : ℚ, (calculate_cac a b = Except.error Err.invalidArgument ↔ b = 0)
      ∧ (b ≠ 0 → ∃ v, calculate_cac a b = Except.ok v))
    ∧ (∀ a b c : ℚ,
      (calculate_customer_retention_rate a b c = Except.error Err.invalidArgument ↔ c = 0)
      ∧ (c ≠ 0 → ∃ v, calculate_customer_retention_rate a b c = Except.ok v))
    ∧ (∀ a b : ℚ, (calculate_gross_profit_margin a b = Except.error Err.invalidArgument ↔ b = 0)
      ∧ (b ≠ 0 → ∃ v, calculate_gross_profit_margin a b = Except.ok v))
    ∧ (∀ a b : ℚ, (calculate_eps a b = Except.error Err.invalidArgument ↔ b = 0)
      ∧ (b ≠ 0 → ∃ v, calculate_eps a b = Except.ok v))
    ∧ (∀ a b : ℚ, (calculate_pe_ratio a b = Except.error Err.invalidArgument ↔ b = 0)
      ∧ (b ≠ 0 → ∃ v, calculate_pe_ratio a b = Except.ok v))
    ∧ (∀ a b : ℚ, (calculate_debt_to_equity a b = Except.error Err.invalidArgument ↔ b = 0)
      ∧ (b ≠ 0 → ∃ v, calculate_debt_to_equity a b = Except.ok v))
    ∧ (∀ a b : ℚ, (calculate_ltv_cac_ratio a b = Except.error Err.invalidArgument ↔ b = 0)
      ∧ (b ≠ 0 → ∃ v, calculate_ltv_cac_ratio a b = Except.ok v))
    ∧ (∀ a b : ℚ, (calculate_aov a b = Except.error Err.invalidArgument ↔ b = 0)
      ∧ (b ≠ 0 → ∃ v, calculate_aov a b = Except.ok v))
    ∧ (∀ a b : ℚ, (calculate_lead_conversion_rate a b = Except.error Err.invalidArgument ↔ b = 0)
      ∧ (b ≠ 0 → ∃ v, calculate_lead_conversion_rate a b = Except.ok v))
    ∧ (∀ a b : ℚ, (calculate_cpl a b = Except.error Err.invalidArgument ↔ b = 0)
      ∧ (b ≠ 0 → ∃ v, calculate_cpl a b = Except.ok v))
    ∧ (∀ a b : ℚ, (calculate_employee_turnover_rate a b = Except.error Err.invalidArgument ↔ b = 0)
      ∧ (b ≠ 0 → ∃ v, calculate_employee_turnover_rate a b = Except.ok v))
    ∧ (∀ a b : ℚ, (measure_employee_productivity a b = Except.error Err.invalidArgument ↔ b = 0)
      ∧ (b ≠ 0 → ∃ v, measure_employee_productivity a b = Except.ok v))
    ∧ (∀ a b c : ℚ,
      (calculate_breakeven_point a b c = Except.error Err.invalidArgument ↔ c ≤ b)
      ∧ (b < c → ∃ v, calculate_breakeven_point a b c = Except.ok v)) := by
  refine ⟨?_, ?_, ?_, ?_, ?_, ?_, ?_, ?_, ?_, ?_, ?_, ?_, ?_, ?_, ?_, ?_, ?_, ?_, ?_, ?_,
    ?_, ?_, ?_⟩
  · intro a b; rw [calculate_margin]; exact guardSpec a _
  · intro a b; rw [calculate_growth_rate]; exact guardSpec a _
  · intro a b; rw [calculate_conversion_rate]; exact guardSpec b _
  · intro a b; rw [calculate_churn_rate]; exact guardSpec b _
  · intro a b; rw [calculate_inventory_turnover]; exact guardSpec b _
  · intro a b; rw [calculate_operating_leverage]; exact guardSpec b _
  · intro a b c; rw [calculate_quick_ratio]; exact guardSpec c _
  · intro a b; rw [calculate_roa]; exact guardSpec b _
  · intro a b; rw [calculate_roe]; exact guardSpec b _
  · intro a b; rw [calculate_current_ratio]; exact guardSpec b _
  · intro a b; rw [calculate_cac]; exact guardSpec b _
  · intro a b c; rw [calculate_customer_retention_rate]; exact guardSpec c _
  · intro a b; rw [calculate_gross_profit_margin]; exact guardSpec b _
  · intro a b; rw [calculate_eps]; exact guardSpec b _
  · intro a b; rw [calculate_pe_ratio]; exact guardSpec b _
  · intro a b; rw [calculate_debt_to_equity]; exact guardSpec b _
  · intro a b; rw [calculate_ltv_cac_ratio]; exact guardSpec b _
  · intro a b; rw [calculate_aov]; exact guardSpec b _
  · intro a b; rw [calculate_lead_conversion_rate]; exact guardSpec b _
  · intro a b; rw [calculate_cpl]; exact guardSpec b _
  · intro a b; rw [calculate_employee_turnover_rate]; exact guardSpec b _
  · intro a b; rw [measure_employee_productivity]; exact guardSpec b _
  · intro a b c; rw [calculate_breakeven_point]; exact guardLeSpec b c _

/-- C2 counterexample: the breakeven point raises although its denominator
`selling_price - variable_cost = 40 - 50` is non-zero, refuting the claim that
every listed operation raises exactly when its documented denominator is zero. -/
theorem breakeven_nonzero_denominator_raises_cex :
    calculate_breakeven_point 1000 50 40 = Except.error Err.invalidArgument
      ∧ (40 : ℚ) - 50 ≠ 0 := by
  refine ⟨?_, by norm_num⟩
  rw [calculate_breakeven_point, if_pos (by norm_num)]

theorem denominator_zero_ops_spec_witness :
    (calculate_margin 1000 800 = Except.error Err.invalidArgument ↔ (1000 : ℚ) = 0)
      ∧ ∃ v, calculate_churn_rate 50 500 = Except.ok v :=
  ⟨(denominator_zero_ops_spec.1 1000 800).1,
    (denominator_zero_ops_spec.2.2.2.1 50 500).2 (by norm_num)⟩

/-- C3: for a non-empty inflow list, `calculate_payback_period` returns the least
1-based index whose prefix sum reaches the investment, `none` (no result, not an
error) when no prefix sum does, and raises `InvalidArgument` on an empty list;
in particular the two documented examples hold. -/
theorem payback_period_least_index_spec :
    (∀ (inv : ℚ) (l : List ℚ), l ≠ [] →
      ∃ r, calculate_payback_period inv l = Except.ok r ∧
        (∀ k, r = some k →
          1 ≤ k ∧ k ≤ l.length ∧ inv ≤ (l.take k).sum ∧
            ∀ j, 1 ≤ j → j < k → (l.take j).sum < inv) ∧
        (r = none → ∀ k, 1 ≤ k → k ≤ l.length → (l.take k).sum < inv))
    ∧ calculate_payback_period 1000 [200, 300, 500] = Except.ok (some 3)
    ∧ calculate_payback_period 1000 [100, 100] = Except.ok none
    ∧ (∀ inv : ℚ, calculate_payback_period inv [] = Except.error Err.invalidArgument) := by
  refine ⟨?_, ?_, ?_, ?_⟩
  · intro inv l hl
    refine ⟨paybackGo inv 0 1 l, by rw [calculate_payback_period, if_neg hl], ?_, ?_⟩
    · intro k hk
      obtain ⟨j, hjl, hkj, hge, hlt⟩ := paybackGo_eq_some inv l 0 1 k hk
      have hk1 : k = j + 1 := by omega
      subst hk1
      refine ⟨by omega, by omega, by simpa using hge, ?_⟩
      intro j0 hj01 hj0k
      have h0 := hlt (j0 - 1) (by omega)
      have hj0 : j0 - 1 + 1 = j0 := by omega
      rw [hj0] at h0
      simpa using h0
    · intro hnone k hk1 hklen
      have := (paybackGo_eq_none_iff inv l 0 1).mp hnone k hk1 hklen
      simpa using this
  · rw [calculate_payback_period, if_neg (by simp)]
    norm_num [paybackGo]
  · rw [calculate_payback_period, if_neg (by simp)]
    norm_num [paybackGo]
  · intro inv
    rw [calculate_payback_period, if_pos rfl]

theorem payback_period_least_index_spec_witness :
    ∃ r, calculate_payback_period 7 [3, 4] = Except.ok r ∧
      (∀ k, r = some k →
        1 ≤ k ∧ k ≤ [(3 : ℚ), 4].length ∧ (7 : ℚ) ≤ ([(3 : ℚ), 4].take k).sum ∧
          ∀ j, 1 ≤ j → j < k → ([(3 : ℚ), 4].take j).sum < 7) ∧
      (r = none → ∀ k, 1 ≤ k → k ≤ [(3 : ℚ), 4].length → ([(3 : ℚ), 4].take k).sum < 7) :=
  payback_period_least_index_spec.1 7 [3, 4] (by simp)

/-- C4: for a non-empty cash-flow list and a rate in [0, 100], `calculate_npv`
returns the sum of `cashFlow[i] / (1 + rate / 100) ^ i` over all indices, which at
rate 0 is the plain sum of the flows; it raises `InvalidArgument` on an empty list
or a rate outside [0, 100]. -/
theorem npv_discounted_sum_spec :
    (∀ (l : List ℚ) (r : ℚ), l ≠ [] → 0 ≤ r → r ≤ 100 →
      calculate_npv l r
        = Except.ok (∑ i ∈ Finset.range l.length, l.getD i 0 / (1 + r / 100) ^ i))
    ∧ (∀ l : List ℚ, l ≠ [] → calculate_npv l 0 = Except.ok l.sum)
    ∧ calculate_npv [100, 200, 300] 0 = Except.ok 600
    ∧ (∀ r : ℚ, calculate_npv [] r = Except.error Err.invalidArgument)
    ∧ (∀ (l : List ℚ) (r : ℚ), r < 0 ∨ 100 < r →
      calculate_npv l r = Except.error Err.invalidArgument) := by
  have hok : ∀ (l : List ℚ) (r : ℚ), l ≠ [] → 0 ≤ r → r ≤ 100 →
      calculate_npv l r
        = Except.ok (∑ i ∈ Finset.range l.length, l.getD i 0 / (1 + r / 100) ^ i) := by
    intro l r hl h0 h100
    rw [calculate_npv, if_neg hl, if_neg (by push_neg; exact ⟨h0, h100⟩), npvSum_eq]
    simp only [Nat.zero_add]
  refine ⟨hok, ?_, ?_, ?_, ?_⟩
  · intro l hl
    rw [hok l 0 hl le_rfl (by norm_num)]
    congr 1
    rw [← sum_range_getD l]
    refine Finset.sum_congr rfl ?_
    intro i _
    norm_num
  · rw [calculate_npv, if_neg (by simp), if_neg (by norm_num)]
    norm_num [npvSum]
  · intro r
    rw [calculate_npv, if_pos rfl]
  · intro l r hr
    by_cases hl : l = []
    · rw [calculate_npv, if_pos hl]
    · rw [calculate_npv, if_neg hl, if_pos hr]

theorem npv_discounted_sum_spec_witness :
    calculate_npv [50, 50] 100
        = Except.ok (∑ i ∈ Finset.range [(50 : ℚ), 50].length,
            [(50 : ℚ), 50].getD i 0 / (1 + 100 / 100) ^ i)
      ∧ calculate_npv [1, 2] 0 = Except.ok ([(1 : ℚ), 2].sum) :=
  ⟨npv_discounted_sum_spec.1 [50, 50] 100 (by simp) (by norm_num) (by norm_num),
    npv_discounted_sum_spec.2.1 [1, 2] (by simp)⟩

/-- C5 (amended): for non-zero revenue, `calculate_margin` returns
`(revenue - cost) / revenue * 100`; this is 100 whenever cost is 0, and it is
negative whenever cost exceeds revenue and the revenue is positive (for a negative
revenue the quotient flips sign, see the counterexample). -/
theorem margin_spec :
    (∀ revenue cost : ℚ, revenue ≠ 0 →
      calculate_margin revenue cost = Except.ok ((revenue - cost) / revenue * 100))
    ∧ (∀ revenue : ℚ, revenue ≠ 0 → calculate_margin revenue 0 = Except.ok 100)
    ∧ (∀ revenue cost : ℚ, 0 < revenue → revenue < cost →
      ∃ m, calculate_margin revenue cost = Except.ok m ∧ m < 0) := by
  refine ⟨?_, ?_, ?_⟩
  · intro r c hr
    rw [calculate_margin, if_neg hr]
  · intro r hr
    rw [calculate_margin, if_neg hr, sub_zero, div_self hr, one_mul]
  · intro r c hr hrc
    refine ⟨(r - c) / r * 100, by rw [calculate_margin, if_neg (by linarith)], ?_⟩
    exact mul_neg_of_neg_of_pos (div_neg_of_neg_of_pos (by linarith) hr) (by norm_num)

/-- C5 counterexample: with revenue -1 and cost 1 the cost exceeds the revenue,
yet the margin is +200, refuting the unconditional claim that the margin is
negative whenever cost > revenue. -/
theorem margin_negative_claim_cex :
    calculate_margin (-1) 1 = Except.ok 200 ∧ ((-1 : ℚ) ≠ 0) ∧ ((-1 : ℚ) < 1)
      ∧ ¬((200 : ℚ) < 0) := by
  refine ⟨?_, by norm_num, by norm_num, by norm_num⟩
  rw [calculate_margin, if_neg (by norm_num)]
  norm_num

theorem margin_spec_witness :
    calculate_margin 1000 800 = Except.ok ((1000 - 800) / 1000 * 100)
      ∧ calculate_margin 5 0 = Except.ok 100
      ∧ ∃ m, calculate_margin 2 3 = Except.ok m ∧ m < 0 :=
  ⟨margin_spec.1 1000 800 (by norm_num), margin_spec.2.1 5 (by norm_num),
    margin_spec.2.2 2 3 (by norm_num) (by norm_num)⟩

/-- C6: `calculate_breakeven_point` raises `InvalidArgument` exactly when the
selling price per unit is at most the variable cost per unit, and otherwise
returns `fixed_costs / (price - variable_cost)`; Breakeven(1000, 10, 50) = 25. -/
theorem breakeven_point_spec :
    (∀ fc vc sp : ℚ,
      calculate_breakeven_point fc vc sp = Except.error Err.invalidArgument ↔ sp ≤ vc)
    ∧ (∀ fc vc sp : ℚ, vc < sp →
      calculate_breakeven_point fc vc sp = Except.ok (fc / (sp - vc)))
    ∧ calculate_breakeven_point 1000 10 50 = Except.ok 25 := by
  refine ⟨?_, ?_, ?_⟩
  · intro fc vc sp
    rw [calculate_breakeven_point]
    exact (guardLeSpec vc sp (fc / (sp - vc))).1
  · intro fc vc sp h
    rw [calculate_breakeven_point, if_neg (not_le.mpr h)]
  · rw [calculate_breakeven_point, if_neg (by norm_num)]
    norm_num

theorem breakeven_point_spec_witness :
    calculate_breakeven_point 500 20 30 = Except.ok (500 / (30 - 20))
      ∧ (calculate_breakeven_point 0 5 5 = Except.error Err.invalidArgument ↔ (5 : ℚ) ≤ 5) :=
  ⟨breakeven_point_spec.2.1 500 20 30 (by norm_num), breakeven_point_spec.1 0 5 5⟩

/-- C8: when both `YYYY-MM-DD` strings parse, `calculate_time_to_market` returns
the day-count difference of the two dates (the difference of their proleptic
Gregorian ordinals); the documented example gives 29; a malformed string on either
side raises `InvalidArgument`. -/
theorem time_to_market_day_diff_spec :
    (∀ (s l : String) (ds dl : Date), parseDate s = some ds → parseDate l = some dl →
      calculate_time_to_market s l = Except.ok ((toOrdinal dl : Int) - (toOrdinal ds : Int)))
    ∧ calculate_time_to_market sampleStart sampleLaunch = Except.ok 29
    ∧ (∀ s l : String, parseDate s = none ∨ parseDate l = none →
      calculate_time_to_market s l = Except.error Err.invalidArgument) := by
  refine ⟨?_, by rfl, ?_⟩
  · intro s l ds dl hs hl
    unfold calculate_time_to_market
    rw [hs, hl]
  · intro s l h
    unfold calculate_time_to_market
    rcases h with h | h
    · rw [h]
    · rw [h]
      cases parseDate s <;> rfl

theorem time_to_market_day_diff_spec_witness :
    calculate_time_to_market sampleStart sampleLaunch
        = Except.ok ((toOrdinal ⟨2022, 1, 30⟩ : Int) - (toOrdinal ⟨2022, 1, 1⟩ : Int))
      ∧ calculate_time_to_market badDate sampleLaunch = Except.error Err.invalidArgument :=
  ⟨time_to_market_day_diff_spec.1 sampleStart sampleLaunch ⟨2022, 1, 1⟩ ⟨2022, 1, 30⟩
      (by decide) (by decide),
    time_to_market_day_diff_spec.2.2 badDate sampleLaunch (Or.inl (by decide))⟩

/-- C9: `calculate_time_to_market` imposes no ordering on its dates: with the
launch date strictly earlier than the start date it still succeeds and the day
count is negative, and two equal dates give 0. -/
theorem time_to_market_no_ordering_spec :
    (∀ (s l : String) (ds dl : Date), parseDate s = some ds → parseDate l = some dl →
      toOrdinal dl < toOrdinal ds →
      ∃ n, calculate_time_to_market s l = Except.ok n ∧ n < 0)
    ∧ (∀ (s l : String) (d : Date), parseDate s = some d → parseDate l = some d →
      calculate_time_to_market s l = Except.ok 0) := by
  constructor
  · intro s l ds dl hs hl hlt
    refine ⟨(toOrdinal dl : Int) - (toOrdinal ds : Int), ?_, by omega⟩
    unfold calculate_time_to_market
    rw [hs, hl]
  · intro s l d hs hl
    unfold calculate_time_to_market
    rw [hs, hl]
    simp

theorem time_to_market_no_ordering_spec_witness :
    (∃ n, calculate_time_to_market sampleLaunch sampleStart = Except.ok n ∧ n < 0)
      ∧ calculate_time_to_market sampleStart sampleStart = Except.ok 0 :=
  ⟨time_to_market_no_ordering_spec.1 sampleLaunch sampleStart ⟨2022, 1, 30⟩ ⟨2022, 1, 1⟩
      (by decide) (by decide) (by decide),
    time_to_market_no_ordering_spec.2 sampleStart sampleStart ⟨2022, 1, 1⟩
      (by decide) (by decide)⟩

/-- C10: `analyze_nps` takes the three respondent counts separately, derives the
denominator as their sum, raises exactly when that sum is zero, and for
non-negative inputs with a positive sum its result lies in [-100, 100]. -/
theorem nps_bounds_spec :
    (∀ p pa d : ℚ, analyze_nps p pa d = Except.error Err.invalidArgument ↔ p + pa + d = 0)
    ∧ (∀ p pa d : ℚ, 0 ≤ p → 0 ≤ pa → 0 ≤ d → 0 < p + pa + d →
      ∃ v, analyze_nps p pa d = Except.ok v
        ∧ v = (p - d) / (p + pa + d) * 100 ∧ -100 ≤ v ∧ v ≤ 100) := by
  constructor
  · intro p pa d
    rw [analyze_nps]
    exact (guardSpec (p + pa + d) _).1
  · intro p pa d hp hpa hd ht
    refine ⟨(p - d) / (p + pa + d) * 100, by rw [analyze_nps, if_neg (ne_of_gt ht)],
      rfl, ?_, ?_⟩
    · rw [div_mul_eq_mul_div, le_div_iff₀ ht]
      linarith
    · rw [div_mul_eq_mul_div, div_le_iff₀ ht]
      linarith

theorem nps_bounds_spec_witness :
    (analyze_nps 0 0 0 = Except.error Err.invalidArgument ↔ (0 : ℚ) + 0 + 0 = 0)
      ∧ ∃ v, analyze_nps 100 50 50 = Except.ok v
        ∧ v = (100 - 50) / (100 + 50 + 50) * 100 ∧ -100 ≤ v ∧ v ≤ 100 :=
  ⟨nps_bounds_spec.1 0 0 0,
    nps_bounds_spec.2 100 50 50 (by norm_num) (by norm_num) (by norm_num) (by norm_num)⟩

/-- The principal complex square root of -1, as produced by the power operator
on a negative base with exponent one half. -/
theorem neg_one_cpow_half : (-1 : ℂ) ^ (1 / 2 : ℂ) = Complex.I := by
  rw [Complex.cpow_def_of_ne_zero (by norm_num), Complex.log_neg_one]
  have h : (Real.pi : ℂ) * Complex.I * (1 / 2) = ((Real.pi / 2 : ℝ) : ℂ) * Complex.I := by
    push_cast
    ring
  rw [h, Complex.exp_mul_I, ← Complex.ofReal_cos, ← Complex.ofReal_sin,
    Real.cos_pi_div_two, Real.sin_pi_div_two]
  simp

/-- C7 counterexample: CAGR(100, -100, 2) evaluates the power of the negative
ratio -1 with exponent one half, so the method hands back the complex number
(i - 1) * 100, whose imaginary part is non-zero: it does not return a real
number for every final value. -/
theorem cagr_nonreal_result_cex :
    calculate_cagr 100 (-100) 2 = Except.ok ((Complex.I - 1) * 100)
      ∧ ((Complex.I - 1) * 100).im ≠ 0 := by
  constructor
  · rw [calculate_cagr, if_neg (by norm_num), if_neg (by norm_num), if_neg (by norm_num)]
    have h1 : (((-100 : ℚ) / 100 : ℚ) : ℂ) = -1 := by norm_num
    have h2 : (((1 / 2 : ℚ)) : ℂ) = (1 / 2 : ℂ) := by norm_num
    rw [h1, h2, neg_one_cpow_half]
  · simp [Complex.mul_im, Complex.sub_im, Complex.sub_re]

/-- C7 (amended): `calculate_cagr` raises `InvalidArgument` exactly when the
initial value is 0 or the number of periods is 0; when additionally the ratio
final/initial is positive (in particular whenever initial and final have the same
sign) it returns the real number `((final/initial)^(1/periods) - 1) * 100`, the
power being the real power; a negative ratio instead yields a non-real complex
value, as in the counterexample. -/
theorem cagr_spec :
    (∀ i f p : ℚ, calculate_cagr i f p = Except.error Err.invalidArgument ↔ i = 0 ∨ p = 0)
    ∧ (∀ i f p : ℚ, i ≠ 0 → p ≠ 0 → 0 < f / i →
      calculate_cagr i f p
        = Except.ok (((((f / i : ℚ) : ℝ) ^ (((1 / p : ℚ) : ℝ)) - 1) * 100 : ℝ) : ℂ)) := by
  constructor
  · intro i f p
    constructor
    · intro h
      rw [calculate_cagr] at h
      split_ifs at h with h1 h2 h3
      · exact Or.inl h1
      · exact Or.inr h2
      all_goals simp at h
    · intro h
      rcases h with h | h
      · rw [calculate_cagr, if_pos h]
      · rw [calculate_cagr]
        by_cases hi : i = 0
        · rw [if_pos hi]
        · rw [if_neg hi, if_pos h]
  · intro i f p hi hp hpos
    rw [calculate_cagr, if_neg hi, if_neg hp,
      if_neg (fun hz => absurd hz.1 (ne_of_gt hpos))]
    have hx : (0 : ℝ) ≤ ((f / i : ℚ) : ℝ) := by
      have h0 : (0 : ℚ) ≤ f / i := le_of_lt hpos
      exact_mod_cast h0
    have hcast : ((f / i : ℚ) : ℂ) ^ ((1 / p : ℚ) : ℂ)
        = ((((f / i : ℚ) : ℝ) ^ ((1 / p : ℚ) : ℝ) : ℝ) : ℂ) := by
      rw [Complex.ofReal_cpow hx]
      norm_cast
    rw [hcast]
    push_cast
    ring_nf

theorem cagr_spec_witness :
    (calculate_cagr 0 5 5 = Except.error Err.invalidArgument ↔ (0 : ℚ) = 0 ∨ (5 : ℚ) = 0)
      ∧ calculate_cagr 100 200 5
        = Except.ok (((((200 / 100 : ℚ) : ℝ) ^ (((1 / 5 : ℚ) : ℝ)) - 1) * 100 : ℝ) : ℂ) :=
  ⟨cagr_spec.1 0 5 5, cagr_spec.2 100 200 5 (by norm_num) (by norm_num) (by norm_num)⟩
